import Mathlib

/-!
Shallow embedding of the libcurl wrapper in this repository
(`src/unnamed/part_002` — the latest implementation draft of `Curl::get`,
`Curl::Curl` and `CurlStringList::append`; `src/docker/src/http.h` — the
matching class declarations; `src/unnamed/part_001` — the header draft that
carries the move operations of `Curl` and `CurlStringList`).

Native libcurl calls are oracles: each call's outcome is a field of an
environment record, so every function of the wrapper becomes a pure function
of its arguments and that environment.  Machine values are `Nat` (CURLcode,
bytes) and `Option Nat` (pointers, `none` = null).
-/

set_option autoImplicit false

namespace Clones

/-- The success value of the native `CURLcode` type (`CURLE_OK = 0`). -/
def CURLE_OK : Nat := 0

/-- One response byte. -/
abbrev Byte := Nat

/-- One chunk of bytes handed to the write callback (`ptr` / `nmemb`). -/
abbrev Chunk := List Byte

/-- `using HeaderMap = std::unordered_map<std::string, std::string>;`
(`http.h` line 9).  Embedded as an association list with unique keys. -/
abbrev HeaderMap := List (String × String)

/-- The error hierarchy of `http.h` lines 22-45: `CurlErrorBase` carries a
message; `CurlError` additionally carries the native `CURLcode`. -/
inductive CurlErr where
  | base (message : String)
  | coded (message : String) (code : Nat)
deriving DecidableEq

/-- The message carried by either error kind (`CurlErrorBase::message`). -/
def CurlErr.message : CurlErr → String
  | .base m => m
  | .coded m _ => m

/-! ## Streaming write sink (`part_002` lines 27-39)

The lambda installed as `CURLOPT_WRITEFUNCTION`:

    if (nmemb != 0) { response.append(ptr, nmemb); }
    return nmemb;

It receives the current accumulator and one chunk, and yields the new
accumulator together with the byte count it reports back to the library
(`size` is ignored by the lambda; libcurl documents `size == 1`). -/
def writeCallback (response : List Byte) (chunk : Chunk) : List Byte × Nat :=
  let nmemb := chunk.length
  if nmemb ≠ 0 then (response ++ chunk, nmemb) else (response, nmemb)

/-- Modelled from the spec: `Curl::get` in `part_002` never performs the
transfer — the `curl_easy_perform` call exists only as the comment
`// success = curl_easy_perform(handle);` and the function has no return
statement.  Per the spec (section 4.4 steps 5-6 and section 5), the transfer
invokes the installed write sink once per delivered chunk, synchronously and
in arrival order, and a successful `GET` returns the accumulated buffer. -/
def performTransfer (response : List Byte) (chunks : List Chunk) : List Byte :=
  chunks.foldl (fun resp c => (writeCallback resp c).1) response

/-! ## Native header list (`CurlStringList`, `http.h` lines 47-56,
move operations and `free_list` from `part_001` lines 79-106) -/

/-- Wrapper around a native `curl_slist*`.  The native list is the sequence of
strings it holds; the null pointer is the empty sequence. -/
structure CurlStringList where
  m_slist : List String
deriving DecidableEq

/-- The native `curl_slist_append` primitive: on success it returns the grown
list, on allocation failure it returns the null sentinel (`none`).  `ok`
is the oracle for whether the native call succeeds. -/
def curl_slist_append (ok : Bool) (slist : List String) (value : String) :
    Option (List String) :=
  if ok then some (slist ++ [value]) else none

/-- `CurlStringList::append` (`part_002` lines 66-72): call the native append;
if it returns null, throw an error built from the message
`"curl_slist_append failed"` (the source spells the thrown type
`CurErrorBase`, a typo for `CurlErrorBase`) without touching `m_slist`;
otherwise store the returned list.  The result pairs the object's state after
the call with the error thrown, if any. -/
def CurlStringList.append (l : CurlStringList) (ok : Bool) (value : String) :
    CurlStringList × Option CurlErr :=
  match curl_slist_append ok l.m_slist value with
  | none => (l, some (.base "curl_slist_append failed"))
  | some new_list => (⟨new_list⟩, none)

/-- The native `curl_slist_free_all`: releases a whole list in one call; on a
null list it is a no-op.  The result records each non-null native list that
was actually released (used to observe double-frees). -/
def curl_slist_free_all (slist : List String) : List (List String) :=
  if slist = [] then [] else [slist]

/-- `CurlStringList::free_list` (`part_001` lines 101-104): free the whole
native list, then null the member.  Returns the native releases performed and
the state after the call. -/
def CurlStringList.free_list (l : CurlStringList) :
    List (List String) × CurlStringList :=
  (curl_slist_free_all l.m_slist, ⟨[]⟩)

/-- `CurlStringList` move construction (`part_001` lines 86-89): steal the
pointer, null the source.  Returns (new object, moved-from source). -/
def CurlStringList.moveCtor (other : CurlStringList) :
    CurlStringList × CurlStringList :=
  (⟨other.m_slist⟩, ⟨[]⟩)

/-- `CurlStringList` move assignment, non-self case (`part_001` lines 90-97):
free the current list, steal the pointer, null the source.  Returns (native
releases performed, new self, moved-from other). -/
def CurlStringList.moveAssign (self other : CurlStringList) :
    List (List String) × CurlStringList × CurlStringList :=
  ((self.free_list).1, ⟨other.m_slist⟩, ⟨[]⟩)

/-! ## Request handle (`Curl`) -/

/-- The `Curl` wrapper object: its one data member is
`CURL* m_handle;` (`http.h` line 19). `none` is the null pointer. -/
structure Curl where
  m_handle : Option Nat
deriving DecidableEq

/-- The process-global native calls the wrapper can make. -/
inductive NativeCall where
  | global_init
  | easy_init
  | global_cleanup
deriving DecidableEq

/-- Oracle for the native calls made by `Curl::Curl`. -/
structure ConstructEnv where
  /-- Result of `curl_global_init(CURL_GLOBAL_NOTHING)`. -/
  global_init_result : Nat
  /-- Result of `curl_easy_init()`; `none` is the null pointer. -/
  easy_init_handle : Option Nat
deriving DecidableEq

/-- `Curl::Curl` (`part_002` lines 3-15): member-initialize `m_handle` to
null; call `curl_global_init` and throw `CurlError("curl_global_init failed",
result)` on failure; call `curl_easy_init()` and throw
`CurlErrorBase("curl_easy_init failed")` if it returns null.  The fresh
handle is stored only in the local variable `CURL* handle`; `m_handle` is
never assigned after its member initializer. -/
def Curl.construct (env : ConstructEnv) : Except CurlErr Curl :=
  let st : Curl := ⟨none⟩
  if env.global_init_result ≠ CURLE_OK then
    .error (.coded "curl_global_init failed" env.global_init_result)
  else
    match env.easy_init_handle with
    | none => .error (.base "curl_easy_init failed")
    | some _handle => .ok st

/-- The process-global native calls `Curl::Curl` performs:
`curl_global_init` on every construction, then (if that succeeded)
`curl_easy_init`. -/
def Curl.ctorCalls (env : ConstructEnv) : List NativeCall :=
  if env.global_init_result ≠ CURLE_OK then [.global_init]
  else [.global_init, .easy_init]

/-- `Curl::release` (`part_001` line 46): `{ curl_global_cleanup(); }` — it
calls the process-global teardown unconditionally; it never reads `m_handle`
and never calls `curl_easy_cleanup`. -/
def Curl.releaseCalls : List NativeCall := [.global_cleanup]

/-- `~Curl`: `{ curl_global_cleanup(); }` in `http.h` line 14, equivalently
`{ release(); }` in `part_001` line 25 — run on every destruction. -/
def Curl.dtorCalls : List NativeCall := Curl.releaseCalls

/-- `Curl` move construction (`part_001` lines 30-33): steal the handle, null
the source.  Returns (new object, moved-from source). -/
def Curl.moveCtor (other : Curl) : Curl × Curl :=
  (⟨other.m_handle⟩, ⟨none⟩)

/-- `Curl` move assignment, non-self case (`part_001` lines 34-40):
`release()` (which is `curl_global_cleanup()`), steal the handle, null the
source.  Returns (native calls performed, new self, moved-from other). -/
def Curl.moveAssign (self other : Curl) : List NativeCall × Curl × Curl :=
  (Curl.releaseCalls, ⟨other.m_handle⟩, ⟨none⟩)

/-- One lifetime event of a `Curl` object in a process. -/
inductive HandleEvent where
  | ctor (env : ConstructEnv)
  | dtor
deriving DecidableEq

/-- The process-global native calls emitted by a sequence of `Curl`
constructions and destructions, in program order. -/
def traceCalls : List HandleEvent → List NativeCall
  | [] => []
  | .ctor env :: rest => Curl.ctorCalls env ++ traceCalls rest
  | .dtor :: rest => Curl.dtorCalls ++ traceCalls rest

/-! ## `Curl::get` (`part_002` lines 17-56) -/

/-- Oracle for the native calls made by one `Curl::get` invocation. -/
structure GetEnv where
  /-- Result of `curl_easy_setopt(m_handle, CURLOPT_URL, url.c_str())`. -/
  set_url_result : Nat
  /-- Result of `curl_easy_setopt(m_handle, CURLOPT_WRITEFUNCTION, ...)` —
  assigned to `result` by the source but never checked. -/
  set_write_result : Nat
  /-- Result of `curl_easy_setopt(m_hanlde, CURLOPT_HTTPHEADER, ...)` (the
  source misspells the member as `m_hanlde`, an undeclared name). -/
  set_header_result : Nat
  /-- The chunks the transport delivers to the write sink, in arrival
  order, during the (spec-modelled) transfer. -/
  chunks : List Chunk
  /-- Result of the (spec-modelled) `curl_easy_perform`. -/
  perform_result : Nat
deriving DecidableEq

/-- `part_002` lines 44-49 in isolation: the header-list construction inside
`Curl::get`.  The declaration `CurlStringList headers;` shadows the `headers`
parameter of `get`, so the loop `for (const auto& [key, value] : headers)`
ranges over that freshly constructed empty local list and executes zero
iterations: no entry of the map is ever appended.  (As written the loop does
not even compile — `CurlStringList` has no `begin`/`end` and the body passes
an `std::ostringstream` to `append` — but name lookup unambiguously binds
`headers` to the shadowing local.) -/
def Curl.builtHeaderList (headers : HeaderMap) : CurlStringList :=
  let headers : CurlStringList := ⟨[]⟩
  headers

/-- The line the loop body of `part_002` lines 45-48 builds for one map
entry: `header << key << ": " << value`. -/
def headerLine (key value : String) : String := key ++ ": " ++ value

/-- `Curl::get` (`part_002` lines 17-56), with the outcome of each native
call drawn from `env`.  Embedded bug-for-bug:

* URL configuration failure throws
  `CurlError("curl_easy_setopt (CURLOPT_URL) failed", result)`;
* `response.reserve(1024 * 1024)` is a capacity hint with no observable
  effect on the byte sequence;
* the result of installing the write callback is assigned but never checked;
* the header list is built by `builtHeaderList` (parameter shadowed — empty);
* header attachment failure throws
  `CurlError("curl_easy_setopt (CURLOPT_HTTPHEADER) failed")` with no code
  argument (as written this does not compile — `CurlError` has no
  single-argument constructor — so the thrown value carries a message only);
* the transfer itself is absent from the source and is supplied by the
  spec-modelled `performTransfer`, with the spec's step-5 failure shape
  (Coded error, operation "transfer failed"). -/
def Curl.get (self : Curl) (url : String) (headers : HeaderMap)
    (env : GetEnv) : Except CurlErr (List Byte) :=
  if env.set_url_result ≠ CURLE_OK then
    .error (.coded "curl_easy_setopt (CURLOPT_URL) failed" env.set_url_result)
  else
    let response : List Byte := []
    let _headerList := Curl.builtHeaderList headers
    if env.set_header_result ≠ CURLE_OK then
      .error (.base "curl_easy_setopt (CURLOPT_HTTPHEADER) failed")
    else
      if env.perform_result ≠ CURLE_OK then
        .error (.coded "transfer failed" env.perform_result)
      else
        .ok (performTransfer response env.chunks)

/-! ## Helper lemmas -/

theorem writeCallback_fst (response : List Byte) (chunk : Chunk) :
    (writeCallback response chunk).1 = response ++ chunk := by
  by_cases h : chunk.length = 0
  · simp [writeCallback, h, List.length_eq_zero.mp h]
  · simp [writeCallback, h]

theorem performTransfer_eq (chunks : List Chunk) :
    ∀ response : List Byte,
      performTransfer response chunks = response ++ chunks.flatten := by
  induction chunks with
  | nil => intro response; simp [performTransfer]
  | cons c cs ih =>
      intro response
      show performTransfer (writeCallback response c).1 cs = response ++ (c :: cs).flatten
      rw [writeCallback_fst, ih, List.flatten_cons, List.append_assoc]

/-! ## Claim theorems -/

/-- Claim C1. For every non-empty url and every HeaderMap, if `Curl::get`
succeeds then the byte sequence it returns is the concatenation, in arrival
order, of every chunk the transport delivered to the write sink during that
call. -/
theorem get_ok_returns_chunk_concat (st : Curl) (url : String)
    (headers : HeaderMap) (env : GetEnv) (hurl : url ≠ "") (bytes : List Byte)
    (h : st.get url headers env = .ok bytes) : bytes = env.chunks.flatten := by
  unfold Curl.get at h
  split at h
  · simp at h
  · split at h
    · simp at h
    · split at h
      · simp at h
      · simp only [Except.ok.injEq] at h
        rw [← h, performTransfer_eq, List.nil_append]

/-- Witness for C1: on a transfer delivering chunks `[1, 2]` then `[3]`,
`get` succeeds and returns `[1, 2, 3]`, their concatenation. -/
theorem get_ok_returns_chunk_concat_w :
    ("http://example.test/data" ≠ "") ∧
    ([1, 2, 3] : List Byte) = ([[1, 2], [3]] : List Chunk).flatten :=
  ⟨by decide,
   get_ok_returns_chunk_concat ⟨none⟩ "http://example.test/data" []
     ⟨0, 0, 0, [[1, 2], [3]], 0⟩ (by decide) [1, 2, 3] rfl⟩

/-- Claim C2. A zero-length invocation of the write sink reports zero bytes
consumed, appends nothing and raises no error, and the byte sequence
returned by `get` is unchanged by a zero-length chunk anywhere in the
delivery sequence. -/
theorem zero_length_chunk_is_noop :
    (∀ response : List Byte, writeCallback response [] = (response, 0)) ∧
    (∀ (st : Curl) (url : String) (headers : HeaderMap)
       (su sw sh pr : Nat) (l1 l2 : List Chunk),
       st.get url headers ⟨su, sw, sh, l1 ++ [[]] ++ l2, pr⟩ =
       st.get url headers ⟨su, sw, sh, l1 ++ l2, pr⟩) := by
  constructor
  · intro response; rfl
  · intro st url headers su sw sh pr l1 l2
    by_cases h1 : su ≠ CURLE_OK
    · simp [Curl.get, h1]
    · by_cases h2 : sh ≠ CURLE_OK
      · simp [Curl.get, h1, h2]
      · by_cases h3 : pr ≠ CURLE_OK
        · simp [Curl.get, h1, h2, h3]
        · simp [Curl.get, h1, h2, h3, performTransfer_eq, List.flatten_append]

/-- Claim C3 (code bug): in the trace "construct a `Curl`, construct a second
`Curl`, destroy one, destroy the other", the process-global calls are two
`curl_global_init`s (the claim requires exactly one) and two
`curl_global_cleanup`s, the first of them emitted by the first destruction,
while the second handle is still live (the claim requires teardown no
earlier than the last destruction). -/
theorem global_lifecycle_eval :
    traceCalls [.ctor ⟨0, some 1⟩, .ctor ⟨0, some 2⟩, .dtor, .dtor] =
      [.global_init, .easy_init, .global_init, .easy_init,
       .global_cleanup, .global_cleanup] ∧
    (traceCalls [.ctor ⟨0, some 1⟩, .ctor ⟨0, some 2⟩, .dtor, .dtor]).count
      .global_init = 2 := by
  constructor
  · rfl
  · rfl

/-- Claim C4 (code bug): for the one-entry map `[("Accept",
"application/json")]`, the native header list built by `Curl::get` holds
zero entries (the local `CurlStringList headers` shadows the parameter), not
`len(headers) = 1`. -/
theorem built_header_list_eval :
    (Curl.builtHeaderList [("Accept", "application/json")]).m_slist = [] ∧
    ([("Accept", "application/json")] : HeaderMap).length = 1 :=
  ⟨rfl, rfl⟩

/-- Counterexample to C5 as stated: when URL configuration returns native
status 42, the Coded error's message is
"curl_easy_setopt (CURLOPT_URL) failed", not "URL configuration failed". -/
theorem url_cfg_message_cx :
    Curl.get ⟨none⟩ "http://example.test" [] ⟨42, 0, 0, [], 0⟩ =
      .error (.coded "curl_easy_setopt (CURLOPT_URL) failed" 42) ∧
    "curl_easy_setopt (CURLOPT_URL) failed" ≠ "URL configuration failed" := by
  constructor
  · rfl
  · decide

/-- Claim C5 as amended: whenever configuring the URL returns a non-success
native status, `get` fails with a Coded error whose message is
"curl_easy_setopt (CURLOPT_URL) failed" and whose code is that status. -/
theorem url_cfg_coded_error (st : Curl) (url : String) (headers : HeaderMap)
    (env : GetEnv) (h : env.set_url_result ≠ CURLE_OK) :
    st.get url headers env =
      .error
        (.coded "curl_easy_setopt (CURLOPT_URL) failed" env.set_url_result) := by
  simp [Curl.get, h]

/-- Witness for the amended C5 at native status 42. -/
theorem url_cfg_coded_error_w :
    ((42 : Nat) ≠ CURLE_OK) ∧
    Curl.get ⟨none⟩ "http://example.test" [] ⟨42, 0, 0, [], 0⟩ =
      .error (.coded "curl_easy_setopt (CURLOPT_URL) failed" 42) :=
  ⟨by decide,
   url_cfg_coded_error ⟨none⟩ "http://example.test" [] ⟨42, 0, 0, [], 0⟩
     (by decide)⟩

/-- Claim C6 (code bug): when attaching the header list returns native status
43, `get` fails with a message-only error — the native status code is
dropped, contrary to the claim that it is preserved. -/
theorem header_attach_eval :
    Curl.get ⟨none⟩ "http://example.test" [] ⟨0, 0, 43, [], 0⟩ =
      .error (.base "curl_easy_setopt (CURLOPT_HTTPHEADER) failed") := rfl

/-- Counterexample to C7 as stated: when the native append returns the null
sentinel, the raised error's message is "curl_slist_append failed", not
"header append failed". -/
theorem append_message_cx :
    (CurlStringList.append ⟨["Host: x"]⟩ false "Accept: y").2 =
      some (.base "curl_slist_append failed") ∧
    "curl_slist_append failed" ≠ "header append failed" :=
  ⟨rfl, by decide⟩

/-- Claim C7 as amended: for every adapter state and value, if the native
append returns the null failure sentinel then `append` raises an ErrorBase
with message "curl_slist_append failed" and leaves the stored native list
exactly as it was before the call. -/
theorem append_failure_atomic :
    ∀ (l : CurlStringList) (value : String),
      l.append false value = (l, some (.base "curl_slist_append failed")) := by
  intro l value
  rfl

/-- Claim C8 (code bug): a `Curl` move nulls the source's `m_handle`, but the
moved-from object's destructor still performs `curl_global_cleanup` (via
`release()`), so destroying it is not a no-op; the header-adapter half of
the claim does hold: a move nulls the source's `m_slist`, destroying a
never-appended (or moved-from) adapter performs no native free, and a second
`free_list` frees nothing. -/
theorem move_ownership_eval :
    (Curl.moveCtor ⟨some 7⟩).2.m_handle = none ∧
    Curl.dtorCalls = [.global_cleanup] ∧
    (CurlStringList.moveCtor ⟨["Accept: application/json"]⟩).2.m_slist = [] ∧
    CurlStringList.free_list ⟨[]⟩ = ([], ⟨[]⟩) ∧
    CurlStringList.free_list
        (CurlStringList.free_list ⟨["Accept: application/json"]⟩).2 =
      ([], ⟨[]⟩) :=
  ⟨rfl, rfl, rfl, rfl, rfl⟩

/-- Claim C9. Whenever `Curl::Curl` completes successfully, the constructed
object's `m_handle` member is null: the fresh native handle was assigned
only to the local variable `handle`. -/
theorem construct_leaves_member_null (env : ConstructEnv) (st : Curl)
    (h : Curl.construct env = .ok st) : st.m_handle = none := by
  unfold Curl.construct at h
  split at h
  · simp at h
  · split at h
    · simp at h
    · simp only [Except.ok.injEq] at h
      rw [← h]

/-- Witness for C9: a successful construction (global init returns `CURLE_OK`,
`curl_easy_init` returns handle 5) yields an object with a null member. -/
theorem construct_leaves_member_null_w :
    Curl.construct ⟨0, some 5⟩ = .ok ⟨none⟩ ∧ (Curl.mk none).m_handle = none :=
  ⟨rfl, construct_leaves_member_null ⟨0, some 5⟩ ⟨none⟩ rfl⟩

/-- Claim C10. Every invocation of the write sink reports exactly the length
of the chunk it was given as consumed — never a partial count, so the sink
itself never signals abort to the native library. -/
theorem sink_consumes_full_chunk :
    ∀ (response : List Byte) (chunk : Chunk),
      (writeCallback response chunk).2 = chunk.length := by
  intro response chunk
  simp only [writeCallback]
  split <;> rfl

end Clones
